import Mathlib

/-
  Shallow embedding of the ESP32 constant-current controller firmware
  (src/src/main.cpp).  C++ `double`/`float` values are modelled as ℚ:
  the firmware operations relevant here (min, comparisons, multiplication
  by constants, truncating integer casts) are exact on the values involved.
  `unsigned long` is modelled as ℕ with explicit reduction mod 2^32 where
  wraparound matters.
-/

/-- `MAXIMUM_BUS_VOLTAGE_INA219` from main.cpp line 35: safety limit, 25.0 V. -/
def MAXIMUM_BUS_VOLTAGE_INA219 : ℚ := 25

/-- `BUCK_FEEDBACK_VOLTAGE` from main.cpp line 56: 1.25 V. -/
def BUCK_FEEDBACK_VOLTAGE : ℚ := 5 / 4

/-- C++ `(int)` cast of a floating value: truncation toward zero. -/
def doubleToInt (q : ℚ) : ℤ :=
  if q < 0 then ⌈q⌉ else ⌊q⌋

/-- Arduino `constrain(x, lo, hi)` macro on integers. -/
def constrain (x lo hi : ℤ) : ℤ :=
  if x < lo then lo else if x > hi then hi else x

/-- `DAC_SAFETY_VALUE` from main.cpp line 57:
`(int)((BUCK_FEEDBACK_VOLTAGE / 3.3) * 255.0)`. -/
def DAC_SAFETY_VALUE : ℤ :=
  doubleToInt ((BUCK_FEEDBACK_VOLTAGE / (33 / 10)) * 255)

/-- The global mutable variables of main.cpp shared between the web-server
handlers and `loop`: lines 40-53 (`Setpoint`, `Kp`, `Ki`, `Kd`,
`targetCurrent_mA`, `maxCurrentLimit_mA`, `sseInterval`).  `sseInterval`
is an `unsigned long` count of milliseconds. -/
structure ControlState where
  targetCurrent_mA : ℚ
  maxCurrentLimit_mA : ℚ
  Setpoint : ℚ
  Kp : ℚ
  Ki : ℚ
  Kd : ℚ
  sseInterval : ℕ
  deriving Repr, DecidableEq

/-- An HTTP response as produced by `request->send(code, "text/plain", body)`. -/
structure HttpResponse where
  code : ℕ
  body : String
  deriving Repr, DecidableEq

/-- The initial values of the globals (main.cpp lines 40-53) before `setup`
runs: `targetCurrent_mA = 100.0`, `maxCurrentLimit_mA = 500.0`,
`Kp = 20, Ki = 5, Kd = 1`, `sseInterval = 1000`; the uninitialised C++
global `Setpoint` is zero-initialised. -/
def initialGlobals : ControlState :=
  { targetCurrent_mA := 100
    maxCurrentLimit_mA := 500
    Setpoint := 0
    Kp := 20
    Ki := 5
    Kd := 1
    sseInterval := 1000 }

/-- The state after `setup` runs its parameter initialisation
(main.cpp line 371: `Setpoint = targetCurrent_mA`). -/
def setupState : ControlState :=
  { initialGlobals with Setpoint := initialGlobals.targetCurrent_mA }

/-- The `/set` route handler (main.cpp lines 314-323).  `current? = some q`
models a request carrying parameter `current` whose string parses (via
`String::toDouble`) to the value `q`; `none` models a missing parameter. -/
def setHandler (s : ControlState) (current? : Option ℚ) :
    ControlState × HttpResponse :=
  match current? with
  | some reqCurrent =>
      let target := min reqCurrent s.maxCurrentLimit_mA
      ({ s with targetCurrent_mA := target, Setpoint := target },
       ⟨200, "OK"⟩)
  | none => (s, ⟨400, "Bad Request"⟩)

/-- The `/setpid` route handler (main.cpp lines 325-335). -/
def setpidHandler (s : ControlState) (kp? ki? kd? : Option ℚ) :
    ControlState × HttpResponse :=
  match kp?, ki?, kd? with
  | some kp, some ki, some kd =>
      ({ s with Kp := kp, Ki := ki, Kd := kd }, ⟨200, "OK"⟩)
  | _, _, _ => (s, ⟨400, "Bad Request"⟩)

/-- The `/setadvanced` route handler (main.cpp lines 338-356).  Applies the
`max` parameter if present (re-clamping `targetCurrent_mA` and `Setpoint`
down when they exceed the new limit), then the `interval` parameter if
present (floor-clamped to 0.1 s, stored in ms via the C cast
`(unsigned long)(intervalSeconds * 1000)`), and always answers 200 OK. -/
def setadvancedHandler (s : ControlState) (max? interval? : Option ℚ) :
    ControlState × HttpResponse :=
  let s1 : ControlState :=
    match max? with
    | some m =>
        let s' := { s with maxCurrentLimit_mA := m }
        if s'.targetCurrent_mA > m then
          { s' with targetCurrent_mA := m, Setpoint := m }
        else s'
    | none => s
  let s2 : ControlState :=
    match interval? with
    | some iv =>
        let ivs : ℚ := if iv < 1 / 10 then 1 / 10 else iv
        { s1 with sseInterval := (doubleToInt (ivs * 1000)).toNat }
    | none => s1
  (s2, ⟨200, "OK"⟩)

/-- The safety-override decision of `loop` (main.cpp line 382):
`CLAMPED` when `busVoltage_V >= MAXIMUM_BUS_VOLTAGE_INA219 &&
targetCurrent_mA > current_mA`, else `NORMAL`. -/
inductive SafetyState where
  | NORMAL
  | CLAMPED
  deriving Repr, DecidableEq

/-- The safety-override condition evaluated each tick, exactly the `if`
condition of main.cpp line 382. -/
def safetyOverride (busVoltage_V current_mA targetCurrent_mA : ℚ) :
    SafetyState :=
  if busVoltage_V ≥ MAXIMUM_BUS_VOLTAGE_INA219 ∧
      targetCurrent_mA > current_mA then
    SafetyState.CLAMPED
  else
    SafetyState.NORMAL

/-- `setBuckFeedback(double pidOutput)` (main.cpp lines 270-273): the DAC
value written, `constrain((int)pidOutput, 1, 255)`. -/
def setBuckFeedback (pidOutput : ℚ) : ℤ :=
  constrain (doubleToInt pidOutput) 1 255

/-- The output limits configured on the PID at the end of `setup`
(main.cpp line 373: `myPID.SetOutputLimits(0, 255)`). -/
def pidOutputLimits : ℚ × ℚ := ((0 : ℚ), (255 : ℚ))

/-- Result of one pass through the safety/PID section of `loop`: the value
written to the DAC and the PID controller state after the tick. -/
structure TickResult (σ : Type) where
  dacValue : ℤ
  pidState : σ
  deriving Repr

/-- The safety-check / PID section of `loop` (main.cpp lines 381-389),
generic over the PID library's internal state `σ` and its compute step
`compute : state → Input → Setpoint → state × Output`.  When the safety
condition holds the DAC receives `DAC_SAFETY_VALUE` and the PID is not
computed; otherwise `Input = current_mA`, `myPID.Compute()` runs, and
`setBuckFeedback(Output)` drives the DAC. -/
def loopTick {σ : Type} (compute : σ → ℚ → ℚ → σ × ℚ) (pid : σ)
    (busVoltage_V current_mA : ℚ) (s : ControlState) : TickResult σ :=
  if safetyOverride busVoltage_V current_mA s.targetCurrent_mA =
      SafetyState.CLAMPED then
    ⟨DAC_SAFETY_VALUE, pid⟩
  else
    let r := compute pid current_mA s.Setpoint
    ⟨setBuckFeedback r.2, r.1⟩

/-- `unsigned long` arithmetic is mod 2^32 on the ESP32. -/
def ULONG_MOD : ℕ := 2 ^ 32

/-- `millis() - lastEventTime` with `unsigned long` wraparound. -/
def elapsedMs (now last : ℕ) : ℕ :=
  (now % ULONG_MOD + (ULONG_MOD - last % ULONG_MOD)) % ULONG_MOD

/-- The SSE telemetry gate of `loop` (main.cpp lines 392-394): publishes
when `millis() - lastEventTime > sseInterval` and then resets
`lastEventTime = millis()`.  Returns (published?, new lastEventTime). -/
def sseTick (now last interval : ℕ) : Bool × ℕ :=
  if interval < elapsedMs now last then (true, now % ULONG_MOD)
  else (false, last)

/-- The truncating cast in `DAC_SAFETY_VALUE` evaluates to 96
(`(int)((1.25 / 3.3) * 255.0)`; the comment "Approx. 97" in main.cpp line 57
notwithstanding, the cast truncates 96.59... to 96). -/
theorem DAC_SAFETY_VALUE_eq : DAC_SAFETY_VALUE = 96 := by
  norm_num [DAC_SAFETY_VALUE, doubleToInt, BUCK_FEEDBACK_VOLTAGE]

/-- `constrain` lands in the requested interval whenever it is nonempty. -/
theorem constrain_mem (x lo hi : ℤ) (h : lo ≤ hi) :
    lo ≤ constrain x lo hi ∧ constrain x lo hi ≤ hi := by
  unfold constrain
  split_ifs <;> omega

/-- C1: the safety override is `CLAMPED` iff `busVoltage_V ≥ 25 ∧
targetCurrent_mA > current_mA`, for all sampled states; in particular at
busVoltage 26 V, current 150 mA, target 100 mA the state is `NORMAL`. -/
theorem C1_safety_override_iff :
    (∀ b c t : ℚ,
        safetyOverride b c t = SafetyState.CLAMPED ↔
          b ≥ MAXIMUM_BUS_VOLTAGE_INA219 ∧ t > c) ∧
    safetyOverride 26 150 100 = SafetyState.NORMAL := by
  constructor
  · intro b c t
    unfold safetyOverride
    split
    · simp_all
    · simp_all
  · unfold safetyOverride MAXIMUM_BUS_VOLTAGE_INA219
    norm_num

/-- C2: on every tick where the safety override is CLAMPED, the DAC receives
the fixed `DAC_SAFETY_VALUE` (which equals 96) instead of the PID result, the
PID compute step is not executed, and the PID internal state is unchanged,
whatever the PID state type and compute step are. -/
theorem C2_clamped_tick_freezes_pid {σ : Type}
    (compute : σ → ℚ → ℚ → σ × ℚ) (pid : σ) (b c : ℚ) (s : ControlState)
    (hb : b ≥ MAXIMUM_BUS_VOLTAGE_INA219) (ht : s.targetCurrent_mA > c) :
    loopTick compute pid b c s = ⟨DAC_SAFETY_VALUE, pid⟩ ∧
    DAC_SAFETY_VALUE = 96 := by
  constructor
  · unfold loopTick safetyOverride
    simp [hb, ht]
  · exact DAC_SAFETY_VALUE_eq

/-- Witness for C2 at Scenario C: bus voltage 26 V, measured current 50 mA,
target 100 mA (the post-setup state). -/
theorem C2_witness :
    loopTick (fun (st inp sp : ℚ) => (st + inp, sp)) (0 : ℚ) 26 50
        setupState = ⟨DAC_SAFETY_VALUE, 0⟩ ∧ DAC_SAFETY_VALUE = 96 :=
  C2_clamped_tick_freezes_pid (fun st inp sp => (st + inp, sp)) 0 26 50
    setupState (by norm_num [MAXIMUM_BUS_VOLTAGE_INA219])
    (by norm_num [setupState, initialGlobals])

/-- C3: if `targetCurrent_mA ≤ maxCurrentLimit_mA` held before, it still
holds after any `/set` or `/setadvanced` request completes; moreover with
the default limit 500, `set current=800` stores a target of 500. -/
theorem C3_target_le_limit (s : ControlState)
    (h : s.targetCurrent_mA ≤ s.maxCurrentLimit_mA) :
    (∀ current?,
        ((setHandler s current?).1).targetCurrent_mA ≤
          ((setHandler s current?).1).maxCurrentLimit_mA) ∧
    (∀ max? interval?,
        ((setadvancedHandler s max? interval?).1).targetCurrent_mA ≤
          ((setadvancedHandler s max? interval?).1).maxCurrentLimit_mA) ∧
    ((setHandler setupState (some 800)).1).targetCurrent_mA = 500 := by
  refine ⟨?_, ?_, ?_⟩
  · intro current?
    cases current? with
    | none => simpa [setHandler] using h
    | some q => simp [setHandler, min_le_right]
  · intro max? interval?
    cases max? with
    | none =>
      cases interval? with
      | none => simpa [setadvancedHandler] using h
      | some iv => simpa [setadvancedHandler] using h
    | some m =>
      cases interval? with
      | none =>
        simp only [setadvancedHandler]
        split
        · simp
        · simp_all [not_lt]
      | some iv =>
        simp only [setadvancedHandler]
        split
        · simp
        · simp_all [not_lt]
  · norm_num [setHandler, setupState, initialGlobals]

/-- Witness for C3 at the post-setup state (target 100 ≤ limit 500). -/
theorem C3_witness :
    ((setHandler setupState (some 800)).1).targetCurrent_mA ≤
      ((setHandler setupState (some 800)).1).maxCurrentLimit_mA :=
  (C3_target_le_limit setupState
    (by norm_num [setupState, initialGlobals])).1 (some 800)

/-- C4 counterexample: the PID output range configured by
`myPID.SetOutputLimits(0, 255)` has lower bound 0, not 1, and PID output 0
is changed by `setBuckFeedback`'s additional `constrain` to 1 — so the PID's
output is not defined on [1,255] and a re-clamp does happen downstream. -/
theorem C4_counterexample :
    pidOutputLimits.1 = 0 ∧ pidOutputLimits.1 ≠ 1 ∧
    setBuckFeedback 0 = 1 ∧ setBuckFeedback 0 ≠ 0 := by
  refine ⟨rfl, by norm_num [pidOutputLimits], ?_, ?_⟩ <;>
    norm_num [setBuckFeedback, constrain, doubleToInt]

/-- C4 amended: every DAC value a loop tick delivers lies in [1,255]
(whatever the PID computes), but the PID's configured output limits are
[0,255], with `setBuckFeedback` applying a further clamp to [1,255]. -/
theorem C4_drive_value_in_range :
    (∀ (σ : Type) (compute : σ → ℚ → ℚ → σ × ℚ) (pid : σ) (b c : ℚ)
        (s : ControlState),
        1 ≤ (loopTick compute pid b c s).dacValue ∧
        (loopTick compute pid b c s).dacValue ≤ 255) ∧
    pidOutputLimits = ((0 : ℚ), (255 : ℚ)) := by
  refine ⟨?_, rfl⟩
  intro σ compute pid b c s
  unfold loopTick
  split
  · rw [DAC_SAFETY_VALUE_eq]
    norm_num
  · exact constrain_mem _ 1 255 (by norm_num)

/-- C5 counterexample: the request `/set?current=-50` (value present, so the
presence check passes) stores the negative target −50 and answers 200 —
no finiteness/sign validation happens before storing. -/
theorem C5_counterexample :
    ((setHandler setupState (some (-50))).1).targetCurrent_mA = -50 ∧
    ((setHandler setupState (some (-50))).1).targetCurrent_mA < 0 ∧
    ((setHandler setupState (some (-50))).2).code = 200 := by
  refine ⟨?_, ?_, rfl⟩ <;>
    norm_num [setHandler, setupState, initialGlobals, min_def]

/-- C5 amended: the handlers validate only parameter presence.  `/set`
without `current` and `/setpid` with a missing gain answer 400 and mutate
nothing; but any present value is stored with no sign or finiteness check:
`/set?current=q` always answers 200 and stores `min q maxCurrentLimit_mA`,
negative values included. -/
theorem C5_presence_only_validation :
    (∀ s : ControlState, setHandler s none = (s, ⟨400, "Bad Request"⟩)) ∧
    (∀ (s : ControlState) (q : ℚ),
        ((setHandler s (some q)).2).code = 200 ∧
        ((setHandler s (some q)).1).targetCurrent_mA =
          min q s.maxCurrentLimit_mA) ∧
    (∀ (s : ControlState) (ki? kd? : Option ℚ),
        setpidHandler s none ki? kd? = (s, ⟨400, "Bad Request"⟩)) := by
  refine ⟨fun s => rfl, fun s q => ⟨rfl, rfl⟩, ?_⟩
  intro s ki? kd?
  cases ki? <;> cases kd? <;> rfl

/-- C6 counterexample: a `/setadvanced` request carrying neither `max` nor
`interval` answers 200, not 400 (the final `send(200, "OK")` runs
unconditionally), though it indeed mutates no state. -/
theorem C6_counterexample :
    ((setadvancedHandler setupState none none).2).code = 200 ∧
    ((setadvancedHandler setupState none none).2).code ≠ 400 ∧
    (setadvancedHandler setupState none none).1 = setupState := by
  exact ⟨rfl, by decide, rfl⟩

/-- C6 amended: `/setadvanced` answers 200 "OK" on every request, including
one with neither parameter; a request with neither parameter mutates no
state. -/
theorem C6_setadvanced_always_ok :
    (∀ (s : ControlState) (max? interval? : Option ℚ),
        (setadvancedHandler s max? interval?).2 = ⟨200, "OK"⟩) ∧
    (∀ s : ControlState, (setadvancedHandler s none none).1 = s) :=
  ⟨fun _ _ _ => rfl, fun _ => rfl⟩

/-- C7: every stored report interval coming from a requested value below
0.1 s is exactly 100 ms, and in particular `setadvanced?interval=0.05`
yields `sseInterval = 100`. -/
theorem C7_interval_floor_clamped :
    (∀ (s : ControlState) (max? : Option ℚ) (iv : ℚ), iv < 1 / 10 →
        ((setadvancedHandler s max? (some iv)).1).sseInterval = 100) ∧
    ((setadvancedHandler setupState none (some (1 / 20))).1).sseInterval
      = 100 := by
  constructor
  · intro s max? iv hiv
    simp only [setadvancedHandler]
    rw [if_pos hiv]
    norm_num [doubleToInt]
    rfl
  · norm_num [setadvancedHandler, doubleToInt]
    rfl

/-- Witness for C7 at the requested interval 0.05 s. -/
theorem C7_witness :
    ((setadvancedHandler setupState (some 400) (some (1 / 20))).1).sseInterval
      = 100 :=
  C7_interval_floor_clamped.1 setupState (some 400) (1 / 20) (by norm_num)

/-- C8 counterexample: with `lastEventTime = 0`, `millis() = 1000` and
`sseInterval = 1000` the elapsed time equals the interval (so ≥ holds), yet
the code — which tests `millis() - lastEventTime > sseInterval` strictly —
does not publish on that tick. -/
theorem C8_counterexample :
    elapsedMs 1000 0 = 1000 ∧ (1000 : ℕ) ≥ 1000 ∧
    (sseTick 1000 0 1000).1 = false := by
  refine ⟨by decide, le_refl _, by decide⟩

/-- C8 amended: on each tick the telemetry gate publishes exactly when the
elapsed time since the last publish is strictly greater than the current
`sseInterval`; on publish the timer resets to the current `millis()`,
otherwise it is unchanged — so an interval change takes effect at the next
comparison. -/
theorem C8_publish_strict_gt :
    ∀ now last interval : ℕ,
      ((sseTick now last interval).1 = true ↔
        elapsedMs now last > interval) ∧
      (sseTick now last interval).2 =
        (if elapsedMs now last > interval then now % ULONG_MOD else last) := by
  intro now last interval
  unfold sseTick
  split_ifs with h
  · simp [h]
  · simp [h]

/-- C10: setup establishes `Setpoint = targetCurrent_mA`, and every request
handler (`/set`, `/setpid`, `/setadvanced`) preserves it, so the regulator
never tracks a setpoint different from the stored target. -/
theorem C10_setpoint_tracks_target :
    setupState.Setpoint = setupState.targetCurrent_mA ∧
    ∀ s : ControlState, s.Setpoint = s.targetCurrent_mA →
      (∀ current?, ((setHandler s current?).1).Setpoint =
          ((setHandler s current?).1).targetCurrent_mA) ∧
      (∀ kp? ki? kd?, ((setpidHandler s kp? ki? kd?).1).Setpoint =
          ((setpidHandler s kp? ki? kd?).1).targetCurrent_mA) ∧
      (∀ max? interval?,
          ((setadvancedHandler s max? interval?).1).Setpoint =
            ((setadvancedHandler s max? interval?).1).targetCurrent_mA) := by
  refine ⟨rfl, ?_⟩
  intro s h
  refine ⟨?_, ?_, ?_⟩
  · intro current?
    cases current? <;> simp [setHandler, h]
  · intro kp? ki? kd?
    cases kp? <;> cases ki? <;> cases kd? <;> simp [setpidHandler, h]
  · intro max? interval?
    cases max? <;> cases interval? <;> simp only [setadvancedHandler] <;>
      first
        | exact h
        | (split <;> simp_all)

/-- Witness for C10: the `/set?current=250` request on the post-setup state
leaves `Setpoint` equal to the stored target. -/
theorem C10_witness :
    ((setHandler setupState (some 250)).1).Setpoint =
      ((setHandler setupState (some 250)).1).targetCurrent_mA :=
  (C10_setpoint_tracks_target.2 setupState rfl).1 (some 250)
